import Mathlib

/-!
Shallow embedding of the traffic-intersection frontend simulation
(frontend/sketch.js): vehicle kinematics with car-following and stop-line
logic, the per-frame draw-loop tick with off-screen removal and statistics,
vehicle spawning, scenario presets, the preferred-phase hint, and inbound
phase-snapshot application.  JavaScript numbers are modelled as exact
rationals; the outcomes of p5's random(k) enter as explicit parameters;
possibly-missing JavaScript values (undefined / NaN) are modelled as Option.
-/

inductive Direction where
  | north
  | south
  | east
  | west
deriving DecidableEq

inductive LightColor where
  | red
  | yellow
  | green
deriving DecidableEq

inductive LightOrientation where
  | vertical
  | horizontal
deriving DecidableEq

/-- A traffic light as in the sketch: geometry, a colour (possibly undefined
after a malformed snapshot), and an orientation. -/
structure TrafficLight where
  x : ℚ
  y : ℚ
  color : Option LightColor
  orientation : LightOrientation
deriving DecidableEq

/-- Canvas width (createCanvas(600, 600)). -/
def width : ℚ := 600

/-- Canvas height. -/
def height : ℚ := 600

def roadWidth : ℚ := 100

def laneWidth : ℚ := roadWidth / 2

/-- A car: position, direction, physics parameters, dimensions, the stopped
flag, and the spawn/exit timestamps managed outside the constructor. -/
structure Car where
  x : ℚ
  y : ℚ
  direction : Direction
  v : ℚ
  vMax : ℚ
  acc : ℚ
  brake : ℚ
  safeGap : ℚ
  stopBuffer : ℚ
  width : ℚ
  height : ℚ
  stopped : Bool
  spawnedAt : Option ℚ
  exitedAt : Option ℚ
deriving DecidableEq

/-- The three random(k) draws made by the Car constructor. -/
structure RandInput where
  rv : ℚ
  ra : ℚ
  rb : ℚ
deriving DecidableEq

/-- The Car constructor: v = 0, vMax = 3 + random(0.5), acc = 0.08 +
random(0.04), brake = 0.25 + random(0.05), safeGap = 45, stopBuffer = 10,
width 20, height 30, stopped = false. -/
def mkCar (x y : ℚ) (direction : Direction) (r : RandInput) : Car :=
  { x := x, y := y, direction := direction, v := 0, vMax := 3 + r.rv,
    acc := 2/25 + r.ra, brake := 1/4 + r.rb, safeGap := 45, stopBuffer := 10,
    width := 20, height := 30, stopped := false,
    spawnedAt := none, exitedAt := none }

/-- getRelevantLight: the first light of the orientation governing the car's
axis. -/
def getRelevantLight (c : Car) (lights : List TrafficLight) : Option TrafficLight :=
  match c.direction with
  | .north | .south => lights.find? (fun l => decide (l.orientation = LightOrientation.vertical))
  | .east | .west => lights.find? (fun l => decide (l.orientation = LightOrientation.horizontal))

def getStopPosition (c : Car) : ℚ :=
  match c.direction with
  | .north => height / 2 - roadWidth - c.height / 2
  | .south => height / 2 + roadWidth + c.height / 2
  | .east => width / 2 + roadWidth + c.height / 2
  | .west => width / 2 - roadWidth - c.height / 2

/-- distanceToStop: signed distance from the car's front edge to its stop
line.  The stopPos argument is taken and ignored, exactly as in the source. -/
def distanceToStop (c : Car) (stopPos : ℚ) : ℚ :=
  match c.direction with
  | .north => (height / 2 - roadWidth) - (c.y + c.height / 2)
  | .south => (c.y - c.height / 2) - (height / 2 + roadWidth)
  | .east => (c.x - c.height / 2) - (width / 2 + roadWidth)
  | .west => (width / 2 - roadWidth) - (c.x + c.height / 2)

/-- Abbreviation used in statements: the car's distance to its stop line. -/
def stopDistance (c : Car) : ℚ := distanceToStop c (getStopPosition c)

def isAtStopLine (c : Car) (stopPos : ℚ) : Bool :=
  decide (distanceToStop c stopPos ≤ c.stopBuffer + 1)

def isWaiting (c : Car) : Bool := c.stopped || decide (c.v < 1/5)

def isOffscreen (c : Car) : Bool :=
  decide (c.x < -50) || decide (c.x > width + 50) ||
    decide (c.y < -50) || decide (c.y > height + 50)

/-- Signed distance from c to other along c's travel axis (positive when
other lies ahead of c). -/
def distanceAlongLaneTo (c other : Car) : ℚ :=
  match c.direction with
  | .north => other.y - c.y
  | .south => c.y - other.y
  | .east => c.x - other.x
  | .west => other.x - c.x

def isBehind (c other : Car) : Bool :=
  match c.direction with
  | .north => decide (c.y < other.y)
  | .south => decide (c.y > other.y)
  | .east => decide (c.x > other.x)
  | .west => decide (c.x < other.x)

def gapTo (c other : Car) : ℚ := distanceAlongLaneTo c other - c.height

/-- The scan inside getCarAhead: keep the nearest strictly-ahead
same-direction car, ties resolved to the first one seen. -/
def bestAhead (c : Car) : List Car → Option (Car × ℚ) → Option (Car × ℚ)
  | [], best => best
  | other :: rest, best =>
    if decide (other.direction = c.direction) && isBehind c other then
      match best with
      | none =>
        if decide (0 < distanceAlongLaneTo c other) then
          bestAhead c rest (some (other, distanceAlongLaneTo c other))
        else
          bestAhead c rest none
      | some (b0, bd) =>
        if decide (0 < distanceAlongLaneTo c other) && decide (distanceAlongLaneTo c other < bd) then
          bestAhead c rest (some (other, distanceAlongLaneTo c other))
        else
          bestAhead c rest (some (b0, bd))
    else
      bestAhead c rest best

/-- getCarAhead over the list of the other cars (the JavaScript loop skips
this by object identity, modelled by excluding the car itself from the
list). -/
def getCarAhead (c : Car) (others : List Car) : Option Car :=
  (bestAhead c others none).map Prod.fst

/-- The car-ahead constraint of update: some car is ahead and the gap to it
is below safeGap. -/
def carAheadBrake (c : Car) (others : List Car) : Bool :=
  match getCarAhead c others with
  | some a => decide (gapTo c a < c.safeGap)
  | none => false

/-- The light test of update: the relevant light exists and is red or
yellow. -/
def facingStopSignal (c : Car) (lights : List TrafficLight) : Bool :=
  match getRelevantLight c lights with
  | some l => decide (l.color = some LightColor.red) || decide (l.color = some LightColor.yellow)
  | none => false

/-- The position integration at the end of update (performed unless the
stopped flag was just set). -/
def integrate (c : Car) : Car :=
  match c.direction with
  | .north => { c with y := c.y + c.v }
  | .south => { c with y := c.y - c.v }
  | .east => { c with x := c.x - c.v }
  | .west => { c with x := c.x + c.v }

/-- Car.update, exactly following the source: clear the stopped flag, brake
for a red/yellow light within braking distance (freezing in place once
speed is zero at the stop line), otherwise brake when too close to the car
ahead, otherwise accelerate toward vMax; finally integrate the position
unless stopped. -/
def Car.update (c : Car) (others : List Car) (lights : List TrafficLight) : Car :=
  let c0 : Car := { c with stopped := false }
  let stopPosition := getStopPosition c0
  let distToStop := distanceToStop c0 stopPosition
  if facingStopSignal c0 lights &&
      decide (distToStop ≤ max 0 (c0.v * c0.v / (2 * c0.brake) + c0.stopBuffer)) then
    let v1 := max 0 (c0.v - c0.brake)
    if decide (v1 = 0) && isAtStopLine c0 stopPosition then
      { c0 with v := v1, stopped := true }
    else
      integrate { c0 with v := v1 }
  else if carAheadBrake c0 others then
    integrate { c0 with v := max 0 (c0.v - c0.brake) }
  else
    integrate { c0 with v := min c0.vMax (c0.v + c0.acc) }

/-- The process-wide counters of the sketch. -/
structure Stats where
  totalCarsPassed : ℕ
  totalWaitTime : ℚ
  carsExited : ℕ
deriving DecidableEq

def stats0 : Stats := { totalCarsPassed := 0, totalWaitTime := 0, carsExited := 0 }

/-- The statistics block run when a car is found off-screen in the draw
loop: a one-time guard on exitedAt, throughput increment, and wait-time
accumulation when a spawn timestamp exists. -/
def statsOnExit (c : Car) (now : ℚ) (st : Stats) : Stats :=
  if c.exitedAt = none then
    match c.spawnedAt with
    | some t0 =>
      { totalCarsPassed := st.totalCarsPassed + 1,
        totalWaitTime := st.totalWaitTime + (now - t0) / 1000,
        carsExited := st.carsExited + 1 }
    | none => { st with totalCarsPassed := st.totalCarsPassed + 1 }
  else st

/-- The draw-loop pass over the car array, from index length-1 down to 0:
each car is updated in place against the current (partially updated) array,
then removed with a statistics update if off-screen. -/
def tickLoop (lights : List TrafficLight) (now : ℚ) : ℕ → List Car × Stats → List Car × Stats
  | 0, s => s
  | i + 1, (cs, st) =>
    match cs[i]? with
    | none => tickLoop lights now i (cs, st)
    | some c =>
      let c' := Car.update c (cs.eraseIdx i) lights
      if isOffscreen c' then
        tickLoop lights now i ((cs.set i c').eraseIdx i, statsOnExit c' now st)
      else
        tickLoop lights now i (cs.set i c', st)

/-- One full simulation tick of the draw loop. -/
def tickSeq (lights : List TrafficLight) (now : ℚ) (cars : List Car) (st : Stats) : List Car × Stats :=
  tickLoop lights now cars.length (cars, st)

def tickSimAux (orig : List Car) (lights : List TrafficLight) : ℕ → List Car → List Car
  | _, [] => []
  | i, c :: rest => Car.update c (orig.eraseIdx i) lights :: tickSimAux orig lights (i + 1) rest

/-- Modelled from the spec: the simultaneous-update tick in which every
vehicle is evaluated against the same pre-tick snapshot of all positions
(spec 4.2 / 5); used to compare against the sequential in-place loop. -/
def tickSim (lights : List TrafficLight) (cars : List Car) : List Car :=
  tickSimAux cars lights 0 cars

/-- The value shown by updateStatsPanel as the average wait (the string
formatting of toFixed(2) is dropped; the no-exits branch shows 0.00). -/
def statsPanelAvgWait (st : Stats) : ℚ :=
  if 0 < st.carsExited then st.totalWaitTime / (st.carsExited : ℚ) else 0

/-- A spawn request; none models a NaN produced by parseInt on a
non-numeric form value. -/
structure SpawnCounts where
  north : Option ℤ
  south : Option ℤ
  east : Option ℤ
  west : Option ℤ
deriving DecidableEq

/-- Number of iterations of "for (i = 0; i < n; i++)" for a JavaScript
count n: zero when n is NaN or negative. -/
def jsLoopCount : Option ℤ → ℕ
  | none => 0
  | some k => k.toNat

/-- spawnCars: per direction, push the requested number of cars staggered
40px apart along the approach lane, stamping spawnedAt. -/
def spawnCars (data : SpawnCounts) (now : ℚ) (rand : ℕ → RandInput) (cars : List Car) : List Car :=
  cars
    ++ (List.range (jsLoopCount data.north)).map (fun (i : ℕ) =>
        { mkCar (width / 2 - laneWidth / 2) (-20 - (i : ℚ) * 40) Direction.north (rand i) with
            spawnedAt := some now })
    ++ (List.range (jsLoopCount data.south)).map (fun (i : ℕ) =>
        { mkCar (width / 2 + laneWidth / 2) (height + 20 + (i : ℚ) * 40) Direction.south (rand i) with
            spawnedAt := some now })
    ++ (List.range (jsLoopCount data.east)).map (fun (i : ℕ) =>
        { mkCar (width + 20 + (i : ℚ) * 40) (height / 2 - laneWidth / 2) Direction.east (rand i) with
            spawnedAt := some now })
    ++ (List.range (jsLoopCount data.west)).map (fun (i : ℕ) =>
        { mkCar (-20 - (i : ℚ) * 40) (height / 2 + laneWidth / 2) Direction.west (rand i) with
            spawnedAt := some now })

inductive Scenario where
  | normal
  | rush
  | accident
deriving DecidableEq

/-- The three scenario presets of simulateScenario. -/
def scenarioCounts : Scenario → SpawnCounts
  | .normal => { north := some 5, south := some 4, east := some 8, west := some 6 }
  | .rush => { north := some 3, south := some 3, east := some 20, west := some 18 }
  | .accident => { north := some 15, south := some 2, east := some 0, west := some 2 }

inductive Phase where
  | NS
  | EW
deriving DecidableEq

/-- JavaScript addition on possibly-NaN integers. -/
def jsAdd : Option ℤ → Option ℤ → Option ℤ
  | some a, some b => some (a + b)
  | _, _ => none

/-- JavaScript >= on possibly-NaN integers (false whenever NaN is
involved). -/
def jsGe (a b : Option ℤ) : Bool :=
  match a, b with
  | some a', some b' => decide (b' ≤ a')
  | _, _ => false

/-- The preferred-phase computation of updateAndSpawn:
ns >= ew ? NS : EW. -/
def preferredPhase (north south east west : Option ℤ) : Phase :=
  if jsGe (jsAdd north south) (jsAdd east west) then Phase.NS else Phase.EW

/-- The body of the POST to /traffic: the four counts and the hint. -/
structure DemandReport where
  north : Option ℤ
  south : Option ℤ
  east : Option ℤ
  west : Option ℤ
  preferredPhase : Phase
deriving DecidableEq

/-- Observable effect of an entry point on the vehicle set and on the
outbound demand reports it issues. -/
structure RunEffects where
  cars : List Car
  reports : List DemandReport
deriving DecidableEq

/-- updateAndSpawn (the form-submission path): computes the hint, posts one
demand report, and spawns the requested cars. -/
def updateAndSpawn (north south east west : Option ℤ) (now : ℚ) (rand : ℕ → RandInput)
    (cars : List Car) : RunEffects :=
  { cars := spawnCars { north := north, south := south, east := east, west := west } now rand cars,
    reports := [{ north := north, south := south, east := east, west := west,
                  preferredPhase := preferredPhase north south east west }] }

/-- simulateScenario: the scenario buttons only call spawnCars; no demand
report (and hence no preferred-phase hint) is sent on this path. -/
def simulateScenario (sc : Scenario) (now : ℚ) (rand : ℕ → RandInput)
    (cars : List Car) : RunEffects :=
  { cars := spawnCars (scenarioCounts sc) now rand cars, reports := [] }

/-- The lights object of an inbound snapshot; a missing per-orientation
colour is none. -/
structure LightsField where
  vertical : Option LightColor
  horizontal : Option LightColor
deriving DecidableEq

/-- An inbound phase snapshot; each field may be missing. -/
structure SnapshotData where
  lights : Option LightsField
  time_to_next_change : Option ℚ
deriving DecidableEq

/-- The client-side phase state touched by applyStateSnapshot: the light
array and the countdown value. -/
structure PhaseState where
  lights : List TrafficLight
  timeToNextChange : ℚ
deriving DecidableEq

/-- applyStateSnapshot: return unchanged when data is absent or has no
lights field; otherwise set the countdown (defaulting a missing
time_to_next_change to 0) and overwrite every light's colour from the
snapshot's per-orientation values. -/
def applyStateSnapshot (st : PhaseState) (data : Option SnapshotData) : PhaseState :=
  match data with
  | none => st
  | some d =>
    match d.lights with
    | none => st
    | some lf =>
      { lights := st.lights.map (fun l =>
          { l with color := if l.orientation = LightOrientation.vertical then lf.vertical else lf.horizontal }),
        timeToNextChange := d.time_to_next_change.getD 0 }

inductive MsgType where
  | state
  | other
deriving DecidableEq

/-- A parsed streaming message envelope. -/
structure WsMsg where
  type : MsgType
  data : Option SnapshotData
deriving DecidableEq

/-- The streaming client: whether the socket is open, and the phase state
it updates. -/
structure WsClient where
  connOpen : Bool
  phase : PhaseState
deriving DecidableEq

/-- The onmessage handler: a parse failure (none) is swallowed; a message
of type state is applied via applyStateSnapshot; nothing closes the
connection. -/
def wsOnMessage (cl : WsClient) (raw : Option WsMsg) : WsClient :=
  match raw with
  | none => cl
  | some m =>
    if m.type = MsgType.state then
      { cl with phase := applyStateSnapshot cl.phase m.data }
    else cl

/-- The four lights created in setup(). -/
def setupLights : List TrafficLight :=
  [ { x := width / 2 - laneWidth / 2, y := height / 2 - roadWidth,
      color := some LightColor.green, orientation := LightOrientation.vertical },
    { x := width / 2 + laneWidth / 2, y := height / 2 + roadWidth,
      color := some LightColor.green, orientation := LightOrientation.vertical },
    { x := width / 2 - roadWidth, y := height / 2 + laneWidth / 2,
      color := some LightColor.red, orientation := LightOrientation.horizontal },
    { x := width / 2 + roadWidth, y := height / 2 - laneWidth / 2,
      color := some LightColor.red, orientation := LightOrientation.horizontal } ]

/-- Speed decision exactly as the claim words it: light-stop check first
(braking distance v*v/(2*brake) plus the stop buffer), then the
following-gap check against the nearest same-direction car ahead, else
accelerate toward the maximum. -/
def specSpeedDecision (c : Car) (others : List Car) (lights : List TrafficLight) : ℚ :=
  if facingStopSignal c lights &&
      decide (distanceToStop c (getStopPosition c) ≤ c.v * c.v / (2 * c.brake) + c.stopBuffer) then
    max 0 (c.v - c.brake)
  else if carAheadBrake c others then
    max 0 (c.v - c.brake)
  else
    min c.vMax (c.v + c.acc)

/-- Parameter ranges produced by the Car constructor (closed supersets of
the half-open random ranges), together with its fixed constants. -/
def ParamsOK (c : Car) : Prop :=
  3 ≤ c.vMax ∧ c.vMax ≤ 7/2 ∧ 2/25 ≤ c.acc ∧ c.acc ≤ 3/25 ∧
    1/4 ≤ c.brake ∧ c.brake ≤ 3/10 ∧ c.stopBuffer = 10 ∧ c.safeGap = 45 ∧ c.height = 30

instance (c : Car) : Decidable (ParamsOK c) := by unfold ParamsOK; infer_instance

/-- Reachable-state invariant for a lone car approaching its stop line:
speed within range and enough remaining distance to brake to a halt
(established at spawn, where v = 0). -/
def LoneInv (c : Car) : Prop :=
  0 ≤ c.v ∧ c.v ≤ c.vMax ∧ c.v * c.v ≤ 2 * c.brake * stopDistance c

instance (c : Car) : Decidable (LoneInv c) := by unfold LoneInv; infer_instance

/-- The car's governing light is red or yellow. -/
def FacingStop (c : Car) (lights : List TrafficLight) : Prop :=
  facingStopSignal c lights = true

instance (c : Car) (lights : List TrafficLight) : Decidable (FacingStop c lights) := by
  unfold FacingStop; infer_instance

/-- n-fold application of update to a car alone on its approach. -/
def loneIter (lights : List TrafficLight) : ℕ → Car → Car
  | 0, c => c
  | n + 1, c => loneIter lights n (Car.update c [] lights)

/-- A car halted at the line: zero speed within the stop buffer; such a
state reproduces itself forever. -/
def Halted (c : Car) : Prop := c.v = 0 ∧ stopDistance c ≤ c.stopBuffer

instance (c : Car) : Decidable (Halted c) := by unfold Halted; infer_instance

/-- Termination measure for the approach to the stop line. -/
def loneMeasure (c : Car) : ℕ :=
  2 * (Int.ceil (stopDistance c / c.acc)).toNat + (Int.ceil (c.v / c.brake)).toNat

/-- Assumptions on the leader needed for the pair invariant: its speed
update stays non-negative. -/
def LeaderOK (l : Car) : Prop := 0 ≤ l.v ∧ 0 ≤ l.acc ∧ 0 ≤ l.vMax

instance (l : Car) : Decidable (LeaderOK l) := by unfold LeaderOK; infer_instance

/-- Invariant for a follower/leader pair in one lane: same direction,
constructor parameters for the follower, a non-negative leader, and enough
gap for the follower to brake to a halt (established at spawn, v = 0). -/
def PairInv (f l : Car) : Prop :=
  f.direction = l.direction ∧ ParamsOK f ∧ LeaderOK l ∧
    0 ≤ f.v ∧ f.v ≤ f.vMax ∧ f.v * f.v ≤ 2 * f.brake * gapTo f l

instance (f l : Car) : Decidable (PairInv f l) := by unfold PairInv; infer_instance

/-- One draw-loop pass restricted to a co-present follower/leader pair,
with either in-array order (the loop runs from the higher index down, so
the boolean chooses which of the two is updated first; the second update
sees the first one's already-updated position, as in the source). -/
def pairTick (leaderFirst : Bool) (lights : List TrafficLight) (p : Car × Car) : Car × Car :=
  if leaderFirst then
    let l' := Car.update p.2 [p.1] lights
    (Car.update p.1 [l'] lights, l')
  else
    let f' := Car.update p.1 [p.2] lights
    (f', Car.update p.2 [f'] lights)

/-- Iterated pair ticks under an arbitrary schedule of array orders and
light states. -/
def pairIter (sched : ℕ → Bool × List TrafficLight) : ℕ → Car × Car → Car × Car
  | 0, p => p
  | n + 1, p => pairIter sched n (pairTick (sched n).1 (sched n).2 p)

/-- A lights list whose vertical light is red (as delivered by a
controller snapshot); used in concrete instances. -/
def redVerticalLights : List TrafficLight :=
  (applyStateSnapshot { lights := setupLights, timeToNextChange := 0 }
    (some { lights := some { vertical := some LightColor.red, horizontal := some LightColor.green },
            time_to_next_change := some 30 })).lights

def rand0 : ℕ → RandInput := fun _ => { rv := 0, ra := 0, rb := 0 }

/-- Concrete northbound car approaching the stop line, used in witnesses. -/
def loneCar : Car :=
  { mkCar (width / 2 - laneWidth / 2) 100 Direction.north (rand0 0) with spawnedAt := some 0 }

/-- Concrete follower for the pair-gap witness. -/
def cexFollower : Car := loneCar

/-- Concrete leader for the pair-gap witness. -/
def cexLeader : Car :=
  { mkCar (width / 2 - laneWidth / 2) 200 Direction.north (rand0 0) with spawnedAt := some 0 }

/-- Follower placed so that the snapshot gap is 44.95 but the gap after the
leader's same-tick move is 45.03. -/
def cexA : Car := loneCar

def cexB : Car :=
  { mkCar (width / 2 - laneWidth / 2) (3499/20) Direction.north (rand0 0) with spawnedAt := some 0 }

/-- A car already past the visible bounds, about to be retired. -/
def exitCar : Car :=
  { mkCar (width / 2 - laneWidth / 2) 700 Direction.north (rand0 0) with spawnedAt := some 0 }

/-- Spawn request with a negative north count and a valid south count. -/
def badCounts : SpawnCounts :=
  { north := some (-1), south := some 2, east := some 0, west := some 0 }

/-- Prior phase state for the snapshot counterexample. -/
def snapPrior : PhaseState := { lights := setupLights, timeToNextChange := 5 }

/-- Inbound snapshot with a lights field but a missing
time_to_next_change. -/
def snapMissingTime : Option SnapshotData :=
  some { lights := some { vertical := some LightColor.red, horizontal := some LightColor.red },
         time_to_next_change := none }

lemma integrate_v (c : Car) : (integrate c).v = c.v := by
  obtain ⟨x, y, d, v, vM, a, b, sg, sb, w, h, s, sp, ex⟩ := c
  cases d <;> rfl

lemma integrate_direction (c : Car) : (integrate c).direction = c.direction := by
  obtain ⟨x, y, d, v, vM, a, b, sg, sb, w, h, s, sp, ex⟩ := c
  cases d <;> rfl

lemma facingStopSignal_stopped (c : Car) (b : Bool) (ls : List TrafficLight) :
    facingStopSignal { c with stopped := b } ls = facingStopSignal c ls := rfl

lemma distanceToStop_stopped (c : Car) (b : Bool) (p : ℚ) :
    distanceToStop { c with stopped := b } p = distanceToStop c p := rfl

lemma getStopPosition_stopped (c : Car) (b : Bool) :
    getStopPosition { c with stopped := b } = getStopPosition c := rfl

lemma stopped_direction (c : Car) (b : Bool) :
    ({ c with stopped := b } : Car).direction = c.direction := rfl

lemma isBehind_stopped (c : Car) (b : Bool) (o : Car) :
    isBehind { c with stopped := b } o = isBehind c o := rfl

lemma dAlong_stopped (c : Car) (b : Bool) (o : Car) :
    distanceAlongLaneTo { c with stopped := b } o = distanceAlongLaneTo c o := rfl

lemma gapTo_stopped (c : Car) (b : Bool) (o : Car) :
    gapTo { c with stopped := b } o = gapTo c o := rfl

lemma bestAhead_stopped (c : Car) (b : Bool) (os : List Car) :
    ∀ best, bestAhead { c with stopped := b } os best = bestAhead c os best := by
  induction os with
  | nil => intro best; rfl
  | cons o rest ih =>
    intro best
    simp only [bestAhead, stopped_direction, isBehind_stopped, dAlong_stopped, ih]

lemma carAheadBrake_stopped (c : Car) (b : Bool) (os : List Car) :
    carAheadBrake { c with stopped := b } os = carAheadBrake c os := by
  unfold carAheadBrake getCarAhead
  rw [bestAhead_stopped]
  cases (bestAhead c os none).map Prod.fst <;> rfl

lemma carAheadBrake_nil (c : Car) : carAheadBrake c [] = false := rfl

lemma update_v_eq (c : Car) (os : List Car) (ls : List TrafficLight) :
    (Car.update c os ls).v = max 0 (c.v - c.brake) ∨
      (Car.update c os ls).v = min c.vMax (c.v + c.acc) := by
  simp only [Car.update]
  split_ifs <;> simp [integrate_v]

lemma update_v_nonneg (c : Car) (os : List Car) (ls : List TrafficLight)
    (h0 : 0 ≤ c.v) (ha : 0 ≤ c.acc) (hM : 0 ≤ c.vMax) : 0 ≤ (Car.update c os ls).v := by
  rcases update_v_eq c os ls with h | h <;> rw [h]
  · exact le_max_left 0 _
  · exact le_min hM (by linarith)

lemma update_v_le_vMax (c : Car) (os : List Car) (ls : List TrafficLight)
    (h0 : 0 ≤ c.v) (h1 : c.v ≤ c.vMax) (hb : 0 ≤ c.brake) :
    (Car.update c os ls).v ≤ c.vMax := by
  rcases update_v_eq c os ls with h | h <;> rw [h]
  · exact max_le (by linarith) (by linarith)
  · exact min_le_left _ _

/-- Claim C3: after every per-tick update, a vehicle's speed lies in
[0, vMax]: it is never negative and never exceeds the configured maximum. -/
theorem c3_speed_bounds (c : Car) (others : List Car) (lights : List TrafficLight)
    (h0 : 0 ≤ c.v) (h1 : c.v ≤ c.vMax) (ha : 0 ≤ c.acc) (hb : 0 ≤ c.brake) :
    0 ≤ (Car.update c others lights).v ∧ (Car.update c others lights).v ≤ c.vMax :=
  ⟨update_v_nonneg c others lights h0 ha (le_trans h0 h1),
   update_v_le_vMax c others lights h0 h1 hb⟩

theorem c3_speed_bounds_witness :
    (0 ≤ loneCar.v ∧ loneCar.v ≤ loneCar.vMax ∧ 0 ≤ loneCar.acc ∧ 0 ≤ loneCar.brake) ∧
      (0 ≤ (Car.update loneCar [] setupLights).v ∧
        (Car.update loneCar [] setupLights).v ≤ loneCar.vMax) :=
  ⟨by with_unfolding_all decide,
   c3_speed_bounds loneCar [] setupLights (by with_unfolding_all decide)
     (by with_unfolding_all decide) (by with_unfolding_all decide) (by with_unfolding_all decide)⟩

/-- Claim C4: the per-tick speed decision is exactly the claimed case
analysis: light-stop braking first, then following-vehicle braking, else
acceleration; braking dominates whenever both constraints apply. -/
theorem c4_speed_decision (c : Car) (others : List Car) (lights : List TrafficLight)
    (hb : 0 < c.brake) (hsb : 0 ≤ c.stopBuffer) :
    (Car.update c others lights).v = specSpeedDecision c others lights := by
  have hnn : 0 ≤ c.v * c.v / (2 * c.brake) + c.stopBuffer :=
    add_nonneg (div_nonneg (mul_self_nonneg _) (by linarith)) hsb
  have hmax : max 0 (c.v * c.v / (2 * c.brake) + c.stopBuffer) =
      c.v * c.v / (2 * c.brake) + c.stopBuffer := max_eq_right hnn
  simp only [Car.update, specSpeedDecision, facingStopSignal_stopped, carAheadBrake_stopped,
    getStopPosition_stopped, distanceToStop_stopped, hmax]
  split_ifs <;> simp [integrate_v]

theorem c4_speed_decision_witness :
    (0 < loneCar.brake ∧ 0 ≤ loneCar.stopBuffer) ∧
      (Car.update loneCar [cexB] setupLights).v = specSpeedDecision loneCar [cexB] setupLights :=
  ⟨by with_unfolding_all decide,
   c4_speed_decision loneCar [cexB] setupLights (by with_unfolding_all decide)
     (by with_unfolding_all decide)⟩

/-- Claim C10 (tie-breaking of the preferred-phase hint): when the summed
north+south count equals the summed east+west count, the hint is NS, since
the comparison is >=. -/
theorem c10_tie_prefers_ns (n s e w : ℤ) (h : n + s = e + w) :
    preferredPhase (some n) (some s) (some e) (some w) = Phase.NS := by
  simp [preferredPhase, jsAdd, jsGe, h]

theorem c10_tie_prefers_ns_witness :
    ((1 : ℤ) + 1 = 2 + 0) ∧ preferredPhase (some 1) (some 1) (some 2) (some 0) = Phase.NS :=
  ⟨by decide, c10_tie_prefers_ns 1 1 2 0 (by decide)⟩

/-- Claim C9, counterexample: the rush scenario path sends no demand report
at all, so it does not produce a preferred-phase hint of EW (the hint is
only computed and sent by the form-submission path). -/
theorem c9_counterexample :
    ¬ ∃ r ∈ (simulateScenario Scenario.rush 0 rand0 []).reports, r.preferredPhase = Phase.EW := by
  simp [simulateScenario]

/-- Claim C9, amended: the preferred-phase computation applied to the rush
counts (north 3, south 3, east 20, west 18) yields EW, since 3+3 < 20+18;
the scenario button itself only spawns vehicles. -/
theorem c9_amended :
    preferredPhase (some 3) (some 3) (some 20) (some 18) = Phase.EW := by decide

/-- Claim C7, counterexample: a request with a negative north count and a
valid south count is not rejected: it changes the vehicle set (the south
cars are spawned), so a partial spawn occurs. -/
theorem c7_counterexample : spawnCars badCounts 0 rand0 [] ≠ [] := by
  with_unfolding_all decide

/-- Claim C7, amended: a non-numeric or negative count yields zero spawned
vehicles for that direction only; directions with valid positive counts in
the same request still spawn (the request is not rejected and a partial
spawn can occur). -/
theorem c7_amended (data : SpawnCounts) (now : ℚ) (rand : ℕ → RandInput) (cars : List Car)
    (h : data.north = none ∨ ∃ k : ℤ, data.north = some k ∧ k < 0) :
    (spawnCars data now rand cars).filter (fun c => decide (c.direction = Direction.north)) =
      cars.filter (fun c => decide (c.direction = Direction.north)) := by
  have hcount : jsLoopCount data.north = 0 := by
    rcases h with h | ⟨k, hk, hneg⟩
    · simp [jsLoopCount, h]
    · simp [jsLoopCount, hk, Int.toNat_eq_zero.mpr (le_of_lt hneg)]
  unfold spawnCars
  rw [hcount]
  simp [List.filter_append, List.filter_map, Function.comp, mkCar]

theorem c7_amended_witness :
    (badCounts.north = none ∨ ∃ k : ℤ, badCounts.north = some k ∧ k < 0) ∧
      (spawnCars badCounts 0 rand0 []).filter (fun c => decide (c.direction = Direction.north)) =
        ([] : List Car).filter (fun c => decide (c.direction = Direction.north)) :=
  ⟨Or.inr ⟨-1, rfl, by decide⟩, c7_amended badCounts 0 rand0 [] (Or.inr ⟨-1, rfl, by decide⟩)⟩

/-- Claim C6, counterexample: an inbound snapshot carrying a lights field
but missing time_to_next_change is not a no-op: applying it resets the
countdown to 0 while the prior value was 5. -/
theorem c6_counterexample :
    (applyStateSnapshot snapPrior snapMissingTime).timeToNextChange ≠ snapPrior.timeToNextChange := by
  with_unfolding_all decide

/-- Claim C6, amended: only snapshots that are absent or lack the lights
field are no-ops (all prior light colours and the countdown are retained);
a snapshot with a lights field is applied even when its other fields are
missing.  The message handler never closes the connection either way. -/
theorem c6_amended (st : PhaseState) (data : Option SnapshotData)
    (h : data = none ∨ ∃ d, data = some d ∧ d.lights = none) :
    applyStateSnapshot st data = st ∧
      ∀ (cl : WsClient) (raw : Option WsMsg), (wsOnMessage cl raw).connOpen = cl.connOpen := by
  constructor
  · rcases h with h | ⟨d, hd, hl⟩
    · rw [h]; rfl
    · subst hd; simp [applyStateSnapshot, hl]
  · intro cl raw
    rcases raw with _ | m
    · rfl
    · by_cases hm : m.type = MsgType.state <;> simp [wsOnMessage, hm]

theorem c6_amended_witness :
    ((some { lights := none, time_to_next_change := some 7 } : Option SnapshotData) = none ∨
      ∃ d, (some { lights := none, time_to_next_change := some 7 } : Option SnapshotData) = some d ∧
        d.lights = none) ∧
      (applyStateSnapshot snapPrior (some { lights := none, time_to_next_change := some 7 }) = snapPrior ∧
        ∀ (cl : WsClient) (raw : Option WsMsg), (wsOnMessage cl raw).connOpen = cl.connOpen) :=
  ⟨Or.inr ⟨_, rfl, rfl⟩,
   c6_amended snapPrior (some { lights := none, time_to_next_change := some 7 }) (Or.inr ⟨_, rfl, rfl⟩)⟩

lemma integrate_exitedAt (c : Car) : (integrate c).exitedAt = c.exitedAt := by
  obtain ⟨x, y, d, v, vM, a, b, sg, sb, w, h, s, sp, ex⟩ := c
  cases d <;> rfl

lemma integrate_spawnedAt (c : Car) : (integrate c).spawnedAt = c.spawnedAt := by
  obtain ⟨x, y, d, v, vM, a, b, sg, sb, w, h, s, sp, ex⟩ := c
  cases d <;> rfl

lemma update_exitedAt (c : Car) (os : List Car) (ls : List TrafficLight) :
    (Car.update c os ls).exitedAt = c.exitedAt := by
  simp only [Car.update]
  split_ifs <;> simp [integrate_exitedAt]

lemma update_direction (c : Car) (os : List Car) (ls : List TrafficLight) :
    (Car.update c os ls).direction = c.direction := by
  simp only [Car.update]
  split_ifs <;> simp [integrate_direction]

lemma statsOnExit_passed (c : Car) (now : ℚ) (st : Stats) (h : c.exitedAt = none) :
    (statsOnExit c now st).totalCarsPassed = st.totalCarsPassed + 1 := by
  unfold statsOnExit
  rw [if_pos h]
  cases c.spawnedAt <;> rfl

lemma tickLoop_stats (lights : List TrafficLight) (now : ℚ) :
    ∀ (i : ℕ) (cs : List Car) (st : Stats), (∀ c ∈ cs, c.exitedAt = none) →
      (tickLoop lights now i (cs, st)).2.totalCarsPassed + ((tickLoop lights now i (cs, st)).1).length
          = st.totalCarsPassed + cs.length
        ∧ ((tickLoop lights now i (cs, st)).1).length ≤ cs.length := by
  intro i
  induction i with
  | zero => intro cs st h; simp [tickLoop]
  | succ i ih =>
    intro cs st h
    simp only [tickLoop]
    cases hc : cs[i]? with
    | none => exact ih cs st h
    | some c =>
      have hilen : i < cs.length := by
        by_contra hle
        rw [List.getElem?_eq_none (le_of_not_lt hle)] at hc
        exact Option.noConfusion hc
      have hmem : c ∈ cs := by
        have hmm := List.getElem_mem (l := cs) (n := i) hilen
        rw [List.getElem?_eq_getElem hilen, Option.some.injEq] at hc
        exact hc ▸ hmm
      dsimp only
      have hset : ∀ x ∈ cs.set i (Car.update c (cs.eraseIdx i) lights), x.exitedAt = none := by
        intro x hx
        rcases List.mem_or_eq_of_mem_set hx with hx | hx
        · exact h x hx
        · rw [hx, update_exitedAt]; exact h c hmem
      by_cases hoff : isOffscreen (Car.update c (cs.eraseIdx i) lights) = true
      · rw [if_pos hoff]
        have herase : ∀ x ∈ (cs.set i (Car.update c (cs.eraseIdx i) lights)).eraseIdx i,
            x.exitedAt = none := by
          intro x hx
          exact hset x ((List.eraseIdx_sublist _ i).mem hx)
        have hrec := ih ((cs.set i (Car.update c (cs.eraseIdx i) lights)).eraseIdx i)
          (statsOnExit (Car.update c (cs.eraseIdx i) lights) now st) herase
        have hlen : ((cs.set i (Car.update c (cs.eraseIdx i) lights)).eraseIdx i).length
            = cs.length - 1 := by
          rw [List.length_eraseIdx_of_lt (by rwa [List.length_set]), List.length_set]
        have hpass := statsOnExit_passed (Car.update c (cs.eraseIdx i) lights) now st
          (by rw [update_exitedAt]; exact h c hmem)
        rw [hlen] at hrec
        rw [hpass] at hrec
        omega
      · rw [if_neg hoff]
        have hrec := ih (cs.set i (Car.update c (cs.eraseIdx i) lights)) st hset
        rw [List.length_set] at hrec
        omega

/-- Claim C8: over one draw-loop tick, the total-passed counter increases by
exactly the number of vehicles removed off-bounds (one increment per removed
vehicle, never a decrement), and the reported average wait equals cumulative
wait over exited count, read as 0.00 when nothing has exited. -/
theorem c8_stats_correct (lights : List TrafficLight) (now : ℚ) (cars : List Car) (st : Stats)
    (h : ∀ c ∈ cars, c.exitedAt = none) :
    (tickSeq lights now cars st).2.totalCarsPassed + ((tickSeq lights now cars st).1).length
        = st.totalCarsPassed + cars.length
      ∧ st.totalCarsPassed ≤ (tickSeq lights now cars st).2.totalCarsPassed
      ∧ ∀ s : Stats, (s.carsExited = 0 → statsPanelAvgWait s = 0)
          ∧ (0 < s.carsExited → statsPanelAvgWait s * (s.carsExited : ℚ) = s.totalWaitTime) := by
  obtain ⟨heq, hle⟩ := tickLoop_stats lights now cars.length cars st h
  simp only [tickSeq]
  refine ⟨heq, by omega, ?_⟩
  intro s
  constructor
  · intro h0; simp [statsPanelAvgWait, h0]
  · intro hpos
    unfold statsPanelAvgWait
    rw [if_pos hpos]
    exact div_mul_cancel₀ _ (Nat.cast_pos.mpr hpos).ne' 

theorem c8_stats_correct_witness :
    (∀ c ∈ [exitCar], c.exitedAt = none) ∧
      ((tickSeq setupLights 1000 [exitCar] stats0).2.totalCarsPassed
            + ((tickSeq setupLights 1000 [exitCar] stats0).1).length
          = stats0.totalCarsPassed + [exitCar].length
        ∧ stats0.totalCarsPassed ≤ (tickSeq setupLights 1000 [exitCar] stats0).2.totalCarsPassed
        ∧ ∀ s : Stats, (s.carsExited = 0 → statsPanelAvgWait s = 0)
            ∧ (0 < s.carsExited → statsPanelAvgWait s * (s.carsExited : ℚ) = s.totalWaitTime)) :=
  ⟨by with_unfolding_all decide,
   c8_stats_correct setupLights 1000 [exitCar] stats0 (by with_unfolding_all decide)⟩

lemma getCarAhead_single_ne (c x : Car) (h : x.direction ≠ c.direction) :
    getCarAhead c [x] = none := by
  simp [getCarAhead, bestAhead, h]

lemma update_ahead_congr (c : Car) (os1 os2 : List Car) (ls : List TrafficLight)
    (h : getCarAhead { c with stopped := false } os1 = getCarAhead { c with stopped := false } os2) :
    Car.update c os1 ls = Car.update c os2 ls := by
  simp only [Car.update, carAheadBrake]
  rw [h]

/-- Claim C5, counterexample: with two same-direction cars, the code's
sequential in-place tick differs from the simultaneous (pre-tick snapshot)
update: the trailing car reads the leader's already-moved position and
accelerates where the snapshot semantics would make it brake. -/
theorem c5_counterexample :
    (tickSeq setupLights 0 [cexA, cexB] stats0).1 ≠ tickSim setupLights [cexA, cexB] := by
  with_unfolding_all decide

/-- Claim C5, amended: the draw loop updates vehicles sequentially in place
(from the highest array index down), so a vehicle's ahead-query sees the
already-updated positions of vehicles processed earlier in the same tick;
the post-tick state coincides with the simultaneous snapshot update when no
two vehicles share a direction (shown here for two-vehicle sets with no
off-screen removal), but can differ for same-direction pairs. -/
theorem c5_snapshot_amended (a b : Car) (lights : List TrafficLight) (now : ℚ) (st : Stats)
    (hd : a.direction ≠ b.direction)
    (hb : isOffscreen (Car.update b [a] lights) = false)
    (ha : isOffscreen (Car.update a [b] lights) = false) :
    tickSeq lights now [a, b] st = (tickSim lights [a, b], st) := by
  have hbd : (Car.update b [a] lights).direction = b.direction := update_direction b [a] lights
  have h2 : Car.update a [Car.update b [a] lights] lights = Car.update a [b] lights := by
    apply update_ahead_congr
    rw [getCarAhead_single_ne _ _ (by rw [hbd, stopped_direction]; exact fun hh => hd hh.symm),
      getCarAhead_single_ne _ _ (by rw [stopped_direction]; exact fun hh => hd hh.symm)]
  show tickLoop lights now 2 ([a, b], st) = _
  simp only [tickLoop, List.getElem?_cons_succ, List.getElem?_cons_zero, List.eraseIdx,
    List.set_cons_succ, List.set_cons_zero]
  rw [hb]
  simp only [Bool.false_eq_true, if_false, tickLoop, List.getElem?_cons_zero, List.eraseIdx,
    List.set_cons_zero]
  rw [h2, ha]
  simp only [Bool.false_eq_true, if_false, tickLoop]
  simp [tickSim, tickSimAux, List.eraseIdx]

/-- Concrete eastbound car used in the C5 amended witness. -/
def cexE : Car :=
  { mkCar 500 (height / 2 - laneWidth / 2) Direction.east (rand0 0) with spawnedAt := some 0 }

theorem c5_snapshot_amended_witness :
    (cexA.direction ≠ cexE.direction ∧
        isOffscreen (Car.update cexE [cexA] setupLights) = false ∧
        isOffscreen (Car.update cexA [cexE] setupLights) = false) ∧
      tickSeq setupLights 0 [cexA, cexE] stats0 = (tickSim setupLights [cexA, cexE], stats0) :=
  ⟨by with_unfolding_all decide,
   c5_snapshot_amended cexA cexE setupLights 0 stats0 (by with_unfolding_all decide)
     (by with_unfolding_all decide) (by with_unfolding_all decide)⟩

lemma integrate_vMax (c : Car) : (integrate c).vMax = c.vMax := by
  obtain ⟨x, y, d, v, vM, a, b, sg, sb, w, h, s, sp, ex⟩ := c
  cases d <;> rfl

lemma integrate_acc (c : Car) : (integrate c).acc = c.acc := by
  obtain ⟨x, y, d, v, vM, a, b, sg, sb, w, h, s, sp, ex⟩ := c
  cases d <;> rfl

lemma integrate_brake (c : Car) : (integrate c).brake = c.brake := by
  obtain ⟨x, y, d, v, vM, a, b, sg, sb, w, h, s, sp, ex⟩ := c
  cases d <;> rfl

lemma integrate_safeGap (c : Car) : (integrate c).safeGap = c.safeGap := by
  obtain ⟨x, y, d, v, vM, a, b, sg, sb, w, h, s, sp, ex⟩ := c
  cases d <;> rfl

lemma integrate_stopBuffer (c : Car) : (integrate c).stopBuffer = c.stopBuffer := by
  obtain ⟨x, y, d, v, vM, a, b, sg, sb, w, h, s, sp, ex⟩ := c
  cases d <;> rfl

lemma integrate_height (c : Car) : (integrate c).height = c.height := by
  obtain ⟨x, y, d, v, vM, a, b, sg, sb, w, h, s, sp, ex⟩ := c
  cases d <;> rfl

lemma update_vMax (c : Car) (os : List Car) (ls : List TrafficLight) :
    (Car.update c os ls).vMax = c.vMax := by
  simp only [Car.update]; split_ifs <;> simp [integrate_vMax]

lemma update_acc (c : Car) (os : List Car) (ls : List TrafficLight) :
    (Car.update c os ls).acc = c.acc := by
  simp only [Car.update]; split_ifs <;> simp [integrate_acc]

lemma update_brake (c : Car) (os : List Car) (ls : List TrafficLight) :
    (Car.update c os ls).brake = c.brake := by
  simp only [Car.update]; split_ifs <;> simp [integrate_brake]

lemma update_safeGap (c : Car) (os : List Car) (ls : List TrafficLight) :
    (Car.update c os ls).safeGap = c.safeGap := by
  simp only [Car.update]; split_ifs <;> simp [integrate_safeGap]

lemma update_stopBuffer (c : Car) (os : List Car) (ls : List TrafficLight) :
    (Car.update c os ls).stopBuffer = c.stopBuffer := by
  simp only [Car.update]; split_ifs <;> simp [integrate_stopBuffer]

lemma update_height (c : Car) (os : List Car) (ls : List TrafficLight) :
    (Car.update c os ls).height = c.height := by
  simp only [Car.update]; split_ifs <;> simp [integrate_height]

lemma ParamsOK_update (c : Car) (os : List Car) (ls : List TrafficLight) (h : ParamsOK c) :
    ParamsOK (Car.update c os ls) := by
  unfold ParamsOK at h ⊢
  rw [update_vMax, update_acc, update_brake, update_safeGap, update_stopBuffer, update_height]
  exact h

lemma dAlong_integrate_self (c z : Car) :
    distanceAlongLaneTo (integrate c) z = distanceAlongLaneTo c z - c.v := by
  obtain ⟨x, y, d, v, vM, a, b, sg, sb, w, h, s, sp, ex⟩ := c
  cases d <;> (simp [integrate, distanceAlongLaneTo]; ring)

lemma dAlong_set_self (c : Car) (w : ℚ) (s : Bool) (z : Car) :
    distanceAlongLaneTo { c with v := w, stopped := s } z = distanceAlongLaneTo c z := rfl

lemma dAlong_set_other (z c : Car) (w : ℚ) (s : Bool) :
    distanceAlongLaneTo z { c with v := w, stopped := s } = distanceAlongLaneTo z c := rfl

lemma dAlong_integrate_other (z c : Car) (h : z.direction = c.direction) :
    distanceAlongLaneTo z (integrate c) = distanceAlongLaneTo z c + c.v := by
  have hz := h
  cases hcd : c.direction <;>
    (rw [hcd] at hz; simp only [integrate, distanceAlongLaneTo, hcd, hz]; ring)

lemma dAlong_other_move (z c : Car) (w : ℚ) (h : z.direction = c.direction) :
    distanceAlongLaneTo z (integrate { c with v := w, stopped := false })
      = distanceAlongLaneTo z c + w := by
  rw [dAlong_integrate_other z { c with v := w, stopped := false } h, dAlong_set_other]

lemma isBehind_iff (c x : Car) : isBehind c x = true ↔ 0 < distanceAlongLaneTo c x := by
  cases hc : c.direction <;> simp [isBehind, distanceAlongLaneTo, hc, sub_pos]

lemma dAlong_update_self (c z : Car) (os : List Car) (ls : List TrafficLight) :
    distanceAlongLaneTo (Car.update c os ls) z
      = distanceAlongLaneTo c z - (Car.update c os ls).v := by
  simp only [Car.update]
  split_ifs with h1 h2 h3
  · have hv1 : max 0 (c.v - c.brake) = (0:ℚ) := by
      have hand := (Bool.and_eq_true _ _).mp h2
      exact of_decide_eq_true hand.1
    simp [hv1, dAlong_set_self]
  · simp [dAlong_integrate_self, integrate_v, dAlong_set_self]
  · simp [dAlong_integrate_self, integrate_v, dAlong_set_self]
  · simp [dAlong_integrate_self, integrate_v, dAlong_set_self]

lemma dAlong_update_other (z c : Car) (os : List Car) (ls : List TrafficLight)
    (h : z.direction = c.direction) :
    distanceAlongLaneTo z (Car.update c os ls)
      = distanceAlongLaneTo z c + (Car.update c os ls).v := by
  simp only [Car.update]
  split_ifs with h1 h2 h3
  · have hv1 : max 0 (c.v - c.brake) = (0:ℚ) := by
      have hand := (Bool.and_eq_true _ _).mp h2
      exact of_decide_eq_true hand.1
    simp [hv1, dAlong_set_other]
  · rw [dAlong_other_move z c (max 0 (c.v - c.brake)) h, integrate_v]
  · rw [dAlong_other_move z c (max 0 (c.v - c.brake)) h, integrate_v]
  · rw [dAlong_other_move z c (min c.vMax (c.v + c.acc)) h, integrate_v]

lemma getCarAhead_single (f x : Car) (hdir : x.direction = f.direction)
    (hpos : 0 < distanceAlongLaneTo f x) :
    getCarAhead { f with stopped := false } [x] = some x := by
  have hb : isBehind f x = true := (isBehind_iff f x).mpr hpos
  simp [getCarAhead, bestAhead, stopped_direction, isBehind_stopped, dAlong_stopped,
    hdir, hb, hpos]

lemma update_pair_speed (f x : Car) (ls : List TrafficLight) (hdir : x.direction = f.direction)
    (hpos : 0 < distanceAlongLaneTo f x) :
    (Car.update f [x] ls).v = max 0 (f.v - f.brake) ∨
      ((Car.update f [x] ls).v = min f.vMax (f.v + f.acc) ∧ f.safeGap ≤ gapTo f x) := by
  have hcab : carAheadBrake { f with stopped := false } [x]
      = decide (gapTo f x < f.safeGap) := by
    unfold carAheadBrake
    rw [getCarAhead_single f x hdir hpos]
    rfl
  simp only [Car.update]
  split_ifs with h1 h2 h3
  · left; simp
  · left; simp [integrate_v]
  · left; simp [integrate_v]
  · right
    refine ⟨by simp [integrate_v], ?_⟩
    rw [hcab] at h3
    simpa using h3

lemma gap_arith (G δ V b vM a w : ℚ)
    (hb1 : 1/4 ≤ b) (hV0 : 0 ≤ V) (hVM : V ≤ vM) (hvM : vM ≤ 7/2)
    (ha : 0 ≤ a) (hδ : 0 ≤ δ) (hG : V * V ≤ 2 * b * G)
    (h : w = max 0 (V - b) ∨ (w = min vM (V + a) ∧ 45 ≤ G + δ)) :
    w * w ≤ 2 * b * (G + δ - w) := by
  have hbδ : 0 ≤ 2 * b * δ := by nlinarith
  rcases h with h | ⟨h, hGd⟩
  · rcases le_total V b with hvb | hvb
    · have hw : w = 0 := by rw [h]; exact max_eq_left (by linarith)
      rw [hw]
      nlinarith [mul_self_nonneg V]
    · have hw : w = V - b := by rw [h]; exact max_eq_right (by linarith)
      rw [hw]
      nlinarith [sq_nonneg b]
  · have hw1 : w ≤ vM := by rw [h]; exact min_le_left _ _
    have hw0 : 0 ≤ w := by
      rw [h]
      exact le_min (by linarith) (by linarith)
    nlinarith

lemma pair_step (o : Bool) (ls : List TrafficLight) (f l : Car) (h : PairInv f l) :
    PairInv (pairTick o ls (f, l)).1 (pairTick o ls (f, l)).2 := by
  obtain ⟨hdir, hp, hlead, hv0, hvM, hG⟩ := h
  obtain ⟨hp1, hp2, hp3, hp4, hp5, hp6, hpB, hpS, hpH⟩ := hp
  obtain ⟨hl1, hl2, hl3⟩ := hlead
  have hacc0 : (0:ℚ) ≤ f.acc := by linarith
  have hbrk0 : (0:ℚ) ≤ f.brake := by linarith
  have hvMax0 : (0:ℚ) ≤ f.vMax := by linarith
  have hG0 : 0 ≤ gapTo f l := by nlinarith [mul_self_nonneg f.v]
  have hgap_eq : gapTo f l = distanceAlongLaneTo f l - f.height := rfl
  have hD : 0 < distanceAlongLaneTo f l := by
    rw [hgap_eq, hpH] at hG0; linarith
  cases o with
  | false =>
    -- follower updated first, against the leader's pre-move position
    show PairInv (Car.update f [l] ls) (Car.update l [Car.update f [l] ls] ls)
    set f' := Car.update f [l] ls with hf'
    set l' := Car.update l [f'] ls with hl'
    have hfd : f'.direction = f.direction := update_direction f [l] ls
    have hld : l'.direction = l.direction := update_direction l [f'] ls
    have hδ0 : 0 ≤ l'.v := update_v_nonneg l [f'] ls hl1 hl2 hl3
    have hfv0 : 0 ≤ f'.v := update_v_nonneg f [l] ls hv0 hacc0 hvMax0
    have hfvM : f'.v ≤ f.vMax := update_v_le_vMax f [l] ls hv0 hvM hbrk0
    have hgap' : gapTo f' l' = gapTo f l + l'.v - f'.v := by
      show distanceAlongLaneTo f' l' - f'.height = _
      rw [dAlong_update_other f' l [f'] ls (by rw [hfd, hdir]),
        dAlong_update_self f l [l] ls, update_height, hgap_eq]
      ring
    have hspeed := update_pair_speed f l ls hdir.symm hD
    refine ⟨by rw [hfd, hld, hdir], ParamsOK_update f [l] ls ⟨hp1, hp2, hp3, hp4, hp5, hp6, hpB, hpS, hpH⟩,
      ⟨hδ0, by rw [update_acc]; exact hl2, by rw [update_vMax]; exact hl3⟩,
      hfv0, by rw [update_vMax]; exact hfvM, ?_⟩
    rw [update_brake, hgap']
    have harith := gap_arith (gapTo f l) l'.v f.v f.brake f.vMax f.acc f'.v
      hp5 hv0 hvM hp2 hacc0 hδ0 hG ?_
    · calc f'.v * f'.v ≤ 2 * f.brake * (gapTo f l + l'.v - f'.v) := harith
        _ = 2 * f.brake * (gapTo f l + l'.v - f'.v) := rfl
    · rcases hspeed with hs | ⟨hs, hs2⟩
      · exact Or.inl hs
      · exact Or.inr ⟨hs, by rw [hpS] at hs2; linarith⟩
  | true =>
    -- leader updated first; the follower then sees the moved leader
    show PairInv (Car.update f [Car.update l [f] ls] ls) (Car.update l [f] ls)
    set l' := Car.update l [f] ls with hl'
    set f' := Car.update f [l'] ls with hf'
    have hld : l'.direction = l.direction := update_direction l [f] ls
    have hfd : f'.direction = f.direction := update_direction f [l'] ls
    have hδ0 : 0 ≤ l'.v := update_v_nonneg l [f] ls hl1 hl2 hl3
    have hfv0 : 0 ≤ f'.v := update_v_nonneg f [l'] ls hv0 hacc0 hvMax0
    have hfvM : f'.v ≤ f.vMax := update_v_le_vMax f [l'] ls hv0 hvM hbrk0
    have hDl' : distanceAlongLaneTo f l' = distanceAlongLaneTo f l + l'.v :=
      dAlong_update_other f l [f] ls hdir
    have hDl'pos : 0 < distanceAlongLaneTo f l' := by rw [hDl']; linarith
    have hgapl' : gapTo f l' = gapTo f l + l'.v := by
      show distanceAlongLaneTo f l' - f.height = _
      rw [hDl', hgap_eq]; ring
    have hgap' : gapTo f' l' = gapTo f l + l'.v - f'.v := by
      show distanceAlongLaneTo f' l' - f'.height = _
      rw [dAlong_update_self f l' [l'] ls, update_height, hDl', hgap_eq]
      ring
    have hspeed := update_pair_speed f l' ls (by rw [hld]; exact hdir.symm) hDl'pos
    refine ⟨by rw [hfd, hld, hdir], ParamsOK_update f [l'] ls ⟨hp1, hp2, hp3, hp4, hp5, hp6, hpB, hpS, hpH⟩,
      ⟨hδ0, by rw [update_acc]; exact hl2, by rw [update_vMax]; exact hl3⟩,
      hfv0, by rw [update_vMax]; exact hfvM, ?_⟩
    rw [update_brake, hgap']
    refine gap_arith (gapTo f l) l'.v f.v f.brake f.vMax f.acc f'.v
      hp5 hv0 hvM hp2 hacc0 hδ0 hG ?_
    rcases hspeed with hs | ⟨hs, hs2⟩
    · exact Or.inl hs
    · refine Or.inr ⟨hs, ?_⟩
      rw [hpS] at hs2
      rw [hgapl'] at hs2
      linarith

lemma pairIter_inv (sched : ℕ → Bool × List TrafficLight) :
    ∀ (n : ℕ) (p : Car × Car), PairInv p.1 p.2 →
      PairInv (pairIter sched n p).1 (pairIter sched n p).2 := by
  intro n
  induction n with
  | zero => intro p h; exact h
  | succ n ih =>
    intro p h
    exact ih _ (pair_step (sched n).1 (sched n).2 p.1 p.2 h)

/-- Claim C2: for a follower/leader pair in the same lane (the leader ahead,
with non-negative speed), the follower's gap to the leader never becomes
negative across any sequence of draw-loop ticks, in either in-array update
order and under any light states. -/
theorem c2_gap_never_negative (sched : ℕ → Bool × List TrafficLight) (f l : Car)
    (h : PairInv f l) :
    ∀ n, 0 ≤ gapTo (pairIter sched n (f, l)).1 (pairIter sched n (f, l)).2 := by
  intro n
  obtain ⟨-, ⟨-, -, -, -, hb, -, -, -, -⟩, -, -, -, hG⟩ := pairIter_inv sched n (f, l) h
  nlinarith [mul_self_nonneg (pairIter sched n (f, l)).1.v]

theorem c2_gap_never_negative_witness :
    PairInv cexFollower cexLeader ∧
      ∀ n, 0 ≤ gapTo (pairIter (fun _ => (true, setupLights)) n (cexFollower, cexLeader)).1
        (pairIter (fun _ => (true, setupLights)) n (cexFollower, cexLeader)).2 :=
  ⟨by with_unfolding_all decide,
   c2_gap_never_negative (fun _ => (true, setupLights)) cexFollower cexLeader
     (by with_unfolding_all decide)⟩

lemma facingStopSignal_congr (c c' : Car) (ls : List TrafficLight)
    (h : c.direction = c'.direction) :
    facingStopSignal c ls = facingStopSignal c' ls := by
  unfold facingStopSignal getRelevantLight
  rw [h]

lemma stopDistance_set (c : Car) (w : ℚ) (s : Bool) :
    stopDistance { c with v := w, stopped := s } = stopDistance c := rfl

lemma stopDistance_only_stopped (c : Car) (s : Bool) :
    stopDistance { c with stopped := s } = stopDistance c := rfl

lemma stopDistance_integrate (c : Car) :
    stopDistance (integrate c) = stopDistance c - c.v := by
  obtain ⟨x, y, d, v, vM, a, b, sg, sb, w, h, s, sp, ex⟩ := c
  cases d <;> (simp only [stopDistance, distanceToStop, integrate, getStopPosition]; ring)

lemma stopDistance_move (c : Car) (w : ℚ) :
    stopDistance (integrate { c with v := w, stopped := false }) = stopDistance c - w := by
  rw [stopDistance_integrate, stopDistance_set]

lemma stopDistance_update (c : Car) (os : List Car) (ls : List TrafficLight) :
    stopDistance (Car.update c os ls) = stopDistance c - (Car.update c os ls).v := by
  simp only [Car.update]
  split_ifs with h1 h2 h3
  · have hv1 : max 0 (c.v - c.brake) = (0:ℚ) := by
      have hand := (Bool.and_eq_true _ _).mp h2
      exact of_decide_eq_true hand.1
    simp [hv1, stopDistance_set]
  · rw [stopDistance_move, integrate_v]
  · rw [stopDistance_move, integrate_v]
  · rw [stopDistance_move, integrate_v]

lemma update_lone_v (c : Car) (ls : List TrafficLight) (hf : facingStopSignal c ls = true) :
    (Car.update c [] ls).v =
      if stopDistance c ≤ max 0 (c.v * c.v / (2 * c.brake) + c.stopBuffer)
      then max 0 (c.v - c.brake) else min c.vMax (c.v + c.acc) := by
  have hf0 : facingStopSignal { c with stopped := false } ls = true := by
    rw [facingStopSignal_stopped]; exact hf
  simp only [Car.update, hf0, Bool.true_and, carAheadBrake_nil, Bool.false_eq_true, if_false]
  have hds : distanceToStop { c with stopped := false } (getStopPosition { c with stopped := false })
      = stopDistance c := rfl
  rw [hds]
  by_cases hclose : stopDistance c ≤ max 0 (c.v * c.v / (2 * c.brake) + c.stopBuffer)
  · rw [if_pos (decide_eq_true hclose), if_pos hclose]
    split_ifs <;> simp [integrate_v]
  · rw [if_neg (fun hdec => hclose (of_decide_eq_true hdec)), if_neg hclose]
    simp [integrate_v]

lemma stopDist_nonneg_of_inv (c : Car) (hp : ParamsOK c) (hi : LoneInv c) :
    0 ≤ stopDistance c := by
  obtain ⟨-, -, -, -, hb, -, -, -, -⟩ := hp
  obtain ⟨-, -, hG⟩ := hi
  nlinarith [mul_self_nonneg c.v]

lemma lone_step (c : Car) (ls : List TrafficLight)
    (hp : ParamsOK c) (hi : LoneInv c) (hf : FacingStop c ls) :
    ParamsOK (Car.update c [] ls) ∧ LoneInv (Car.update c [] ls) ∧
      FacingStop (Car.update c [] ls) ls := by
  obtain ⟨hp1, hp2, hp3, hp4, hp5, hp6, hpB, hpS, hpH⟩ := hp
  obtain ⟨hv0, hvM, hG⟩ := hi
  have hbpos : (0:ℚ) < c.brake := by linarith
  have hvchar := update_lone_v c ls hf
  have hdchar := stopDistance_update c [] ls
  refine ⟨ParamsOK_update c [] ls ⟨hp1, hp2, hp3, hp4, hp5, hp6, hpB, hpS, hpH⟩, ?_, ?_⟩
  · refine ⟨update_v_nonneg c [] ls hv0 (by linarith) (by linarith), ?_, ?_⟩
    · rw [update_vMax]
      exact update_v_le_vMax c [] ls hv0 hvM (by linarith)
    · rw [update_brake, hdchar]
      by_cases hclose : stopDistance c ≤ max 0 (c.v * c.v / (2 * c.brake) + c.stopBuffer)
      · rw [if_pos hclose] at hvchar
        rw [hvchar]
        rcases le_total c.v c.brake with hvb | hvb
        · have hw : max 0 (c.v - c.brake) = (0:ℚ) := max_eq_left (by linarith)
          rw [hw]
          nlinarith [mul_self_nonneg c.v]
        · have hw : max 0 (c.v - c.brake) = c.v - c.brake := max_eq_right (by linarith)
          rw [hw]
          nlinarith [sq_nonneg c.brake]
      · rw [if_neg hclose] at hvchar
        rw [hvchar]
        push_neg at hclose
        have hX : c.v * c.v / (2 * c.brake) + c.stopBuffer
            ≤ max 0 (c.v * c.v / (2 * c.brake) + c.stopBuffer) := le_max_right _ _
        have hfar : c.v * c.v / (2 * c.brake) + c.stopBuffer < stopDistance c := by linarith
        have h2bd : c.v * c.v + 2 * c.brake * c.stopBuffer < 2 * c.brake * stopDistance c := by
          have hne : (2 * c.brake) ≠ 0 := by positivity
          have := mul_lt_mul_of_pos_left hfar (show (0:ℚ) < 2 * c.brake by positivity)
          calc c.v * c.v + 2 * c.brake * c.stopBuffer
              = 2 * c.brake * (c.v * c.v / (2 * c.brake) + c.stopBuffer) := by
                field_simp
                ring
            _ < 2 * c.brake * stopDistance c := this
        have hw1 : min c.vMax (c.v + c.acc) ≤ c.vMax := min_le_left _ _
        have hw2 : min c.vMax (c.v + c.acc) ≤ c.v + c.acc := min_le_right _ _
        have hw0 : 0 ≤ min c.vMax (c.v + c.acc) := le_min (by linarith) (by linarith)
        rw [hpB] at h2bd
        nlinarith
  · unfold FacingStop
    rw [facingStopSignal_congr _ c ls (update_direction c [] ls)]
    exact hf

lemma halted_fix (c : Car) (ls : List TrafficLight) (hp : ParamsOK c) (hf : FacingStop c ls)
    (hh : Halted c) : Car.update c [] ls = { c with stopped := true } := by
  obtain ⟨hp1, hp2, hp3, hp4, hp5, hp6, hpB, hpS, hpH⟩ := hp
  obtain ⟨hv, hd⟩ := hh
  have hf0 : facingStopSignal { c with stopped := false } ls = true := by
    rw [facingStopSignal_stopped]; exact hf
  have hds : distanceToStop { c with stopped := false } (getStopPosition { c with stopped := false })
      = stopDistance c := rfl
  have hthr : max 0 (c.v * c.v / (2 * c.brake) + c.stopBuffer) = c.stopBuffer := by
    rw [hv, hpB]; norm_num
  have hclose : stopDistance c ≤ max 0 (c.v * c.v / (2 * c.brake) + c.stopBuffer) := by
    rw [hthr]; exact hd
  have hv1 : max 0 (c.v - c.brake) = (0:ℚ) := by
    rw [hv]; exact max_eq_left (by linarith)
  have hatline : isAtStopLine { c with stopped := false }
      (getStopPosition { c with stopped := false }) = true := by
    unfold isAtStopLine
    apply decide_eq_true
    show stopDistance c ≤ c.stopBuffer + 1
    linarith
  simp only [Car.update, hf0, Bool.true_and, hds]
  rw [if_pos (decide_eq_true hclose), hv1]
  rw [if_pos (by rw [hatline]; simp)]
  rw [← hv]

lemma lone_measure_lt (c : Car) (ls : List TrafficLight)
    (hp : ParamsOK c) (hi : LoneInv c) (hf : FacingStop c ls) (hn : ¬ Halted c) :
    loneMeasure (Car.update c [] ls) < loneMeasure c := by
  obtain ⟨hp1, hp2, hp3, hp4, hp5, hp6, hpB, hpS, hpH⟩ := hp
  obtain ⟨hv0, hvM, hG⟩ := hi
  have hbpos : (0:ℚ) < c.brake := by linarith
  have hapos : (0:ℚ) < c.acc := by linarith
  have hvchar := update_lone_v c ls hf
  have hdchar := stopDistance_update c [] ls
  set c' := Car.update c [] ls with hc'
  have hbr' : c'.brake = c.brake := update_brake c [] ls
  have hac' : c'.acc = c.acc := update_acc c [] ls
  unfold loneMeasure
  rw [hbr', hac', hdchar]
  by_cases hclose : stopDistance c ≤ max 0 (c.v * c.v / (2 * c.brake) + c.stopBuffer)
  · rw [if_pos hclose] at hvchar
    rcases le_or_lt c.brake c.v with hvb | hvb
    · have hw : c'.v = c.v - c.brake := by
        rw [hvchar]; exact max_eq_right (by linarith)
      rw [hw]
      have hb1 : (1:ℚ) ≤ c.v / c.brake := (one_le_div hbpos).mpr hvb
      have hBlow : 1 ≤ ⌈c.v / c.brake⌉ := by
        have := le_trans hb1 (Int.le_ceil _)
        exact_mod_cast this
      have hBeq : ⌈(c.v - c.brake) / c.brake⌉ = ⌈c.v / c.brake⌉ - 1 := by
        have hdd : (c.v - c.brake) / c.brake = c.v / c.brake - 1 := by
          rw [sub_div, div_self hbpos.ne']
        rw [hdd, Int.ceil_sub_one]
      have hAle : ⌈(stopDistance c - (c.v - c.brake)) / c.acc⌉ ≤ ⌈stopDistance c / c.acc⌉ :=
        Int.ceil_mono ((div_le_div_right hapos).mpr (by linarith))
      rw [hBeq]
      omega
    · rcases eq_or_lt_of_le hv0 with hv00 | hvpos
      · exfalso
        apply hn
        refine ⟨hv00.symm, ?_⟩
        have hthr : max 0 (c.v * c.v / (2 * c.brake) + c.stopBuffer) = c.stopBuffer := by
          rw [← hv00, hpB]; norm_num
        rw [hthr] at hclose
        exact hclose
      · have hw : c'.v = 0 := by
          rw [hvchar]; exact max_eq_left (by linarith)
        have hB1 : ⌈c.v / c.brake⌉ = 1 := by
          have hle : ⌈c.v / c.brake⌉ ≤ 1 := by
            apply Int.ceil_le.mpr
            push_cast
            exact (div_le_one hbpos).mpr (le_of_lt hvb)
          have hge : 0 < ⌈c.v / c.brake⌉ := Int.ceil_pos.mpr (div_pos hvpos hbpos)
          omega
        rw [hw, hB1]
        simp only [zero_div, Int.ceil_zero, sub_zero]
        omega
  · rw [if_neg hclose] at hvchar
    push_neg at hclose
    have hX0 : 0 ≤ c.v * c.v / (2 * c.brake) := by positivity
    have hd10 : (10:ℚ) < stopDistance c := by
      have h10 : (10:ℚ) ≤ max 0 (c.v * c.v / (2 * c.brake) + c.stopBuffer) :=
        le_trans (by rw [hpB]; linarith) (le_max_right _ _)
      linarith
    have hwlow : c.acc ≤ c'.v := by
      rw [hvchar]; exact le_min (by linarith) (by linarith)
    have hwhigh : c'.v ≤ c.v + c.acc := by rw [hvchar]; exact min_le_right _ _
    have hA1 : 0 < ⌈stopDistance c / c.acc⌉ := Int.ceil_pos.mpr (div_pos (by linarith) hapos)
    have hAle : ⌈(stopDistance c - c'.v) / c.acc⌉ ≤ ⌈stopDistance c / c.acc⌉ - 1 := by
      have h1 : (stopDistance c - c'.v) / c.acc ≤ (stopDistance c - c.acc) / c.acc :=
        (div_le_div_right hapos).mpr (by linarith)
      have h2 : (stopDistance c - c.acc) / c.acc = stopDistance c / c.acc - 1 := by
        rw [sub_div, div_self hapos.ne']
      calc ⌈(stopDistance c - c'.v) / c.acc⌉ ≤ ⌈stopDistance c / c.acc - 1⌉ :=
            Int.ceil_mono (by linarith)
        _ = ⌈stopDistance c / c.acc⌉ - 1 := Int.ceil_sub_one _
    have hBle : ⌈c'.v / c.brake⌉ ≤ ⌈c.v / c.brake⌉ + 1 := by
      have h1 : c'.v / c.brake ≤ (c.v + c.acc) / c.brake :=
        (div_le_div_right hbpos).mpr hwhigh
      have h2 : (c.v + c.acc) / c.brake = c.v / c.brake + c.acc / c.brake := add_div _ _ _
      have h3 : c.acc / c.brake ≤ 1 := (div_le_one hbpos).mpr (by linarith)
      calc ⌈c'.v / c.brake⌉ ≤ ⌈c.v / c.brake + 1⌉ := Int.ceil_mono (by linarith)
        _ = ⌈c.v / c.brake⌉ + 1 := Int.ceil_add_one _
    have hB0 : 0 ≤ ⌈c.v / c.brake⌉ := Int.ceil_nonneg (by positivity)
    omega

lemma lone_iter_inv (ls : List TrafficLight) :
    ∀ (n : ℕ) (c : Car), ParamsOK c → LoneInv c → FacingStop c ls →
      ParamsOK (loneIter ls n c) ∧ LoneInv (loneIter ls n c) ∧
        FacingStop (loneIter ls n c) ls := by
  intro n
  induction n with
  | zero => intro c hp hi hf; exact ⟨hp, hi, hf⟩
  | succ n ih =>
    intro c hp hi hf
    obtain ⟨hp', hi', hf'⟩ := lone_step c ls hp hi hf
    exact ih (Car.update c [] ls) hp' hi' hf'

lemma lone_reaches_halt (ls : List TrafficLight) :
    ∀ (k : ℕ) (c : Car), ParamsOK c → LoneInv c → FacingStop c ls → loneMeasure c ≤ k →
      ∃ N, N ≤ k ∧ Halted (loneIter ls N c) := by
  intro k
  induction k with
  | zero =>
    intro c hp hi hf hm
    by_cases hh : Halted c
    · exact ⟨0, le_refl 0, hh⟩
    · exact absurd (lone_measure_lt c ls hp hi hf hh) (by omega)
  | succ k ih =>
    intro c hp hi hf hm
    by_cases hh : Halted c
    · exact ⟨0, Nat.zero_le _, hh⟩
    · obtain ⟨hp', hi', hf'⟩ := lone_step c ls hp hi hf
      have hlt := lone_measure_lt c ls hp hi hf hh
      obtain ⟨N, hN, hH⟩ := ih (Car.update c [] ls) hp' hi' hf' (by omega)
      exact ⟨N + 1, by omega, hH⟩

lemma params_stopped (c : Car) (s : Bool) (h : ParamsOK c) :
    ParamsOK { c with stopped := s } := h

lemma facing_stopped (c : Car) (s : Bool) (ls : List TrafficLight) (h : FacingStop c ls) :
    FacingStop { c with stopped := s } ls := by
  unfold FacingStop
  rw [facingStopSignal_stopped]
  exact h

lemma halted_iter (ls : List TrafficLight) :
    ∀ (m : ℕ) (c : Car), ParamsOK c → FacingStop c ls → Halted c →
      (loneIter ls m c).v = 0 ∧ stopDistance (loneIter ls m c) = stopDistance c := by
  intro m
  induction m with
  | zero => intro c _ _ hh; exact ⟨hh.1, rfl⟩
  | succ m ih =>
    intro c hp hf hh
    have hfix := halted_fix c ls hp hf hh
    have hstep : loneIter ls (m + 1) c = loneIter ls m { c with stopped := true } := by
      show loneIter ls m (Car.update c [] ls) = _
      rw [hfix]
    rw [hstep]
    have hh' : Halted { c with stopped := true } := ⟨hh.1, hh.2⟩
    obtain ⟨hv, hd⟩ := ih { c with stopped := true } (params_stopped c true hp)
      (facing_stopped c true ls hf) hh'
    exact ⟨hv, by rw [hd]; rfl⟩

lemma loneIter_add (ls : List TrafficLight) :
    ∀ (a b : ℕ) (c : Car), loneIter ls (a + b) c = loneIter ls b (loneIter ls a c) := by
  intro a
  induction a with
  | zero => intro b c; rw [Nat.zero_add]; rfl
  | succ a ih =>
    intro b c
    have hsa : a + 1 + b = (a + b) + 1 := by omega
    rw [hsa]
    show loneIter ls (a + b) (Car.update c [] ls) = _
    rw [ih b (Car.update c [] ls)]
    rfl

/-- Claim C1: a vehicle alone on its approach facing a red/yellow light, in
a reachable state (speed within range and enough distance left to brake to
a halt, as holds from spawn onward), never has its front cross the stop
line, and repeated ticks bring and keep its speed at zero with the stop
line still ahead. -/
theorem c1_red_light_stopping (c : Car) (lights : List TrafficLight)
    (hp : ParamsOK c) (hi : LoneInv c) (hf : FacingStop c lights) :
    (∀ n, 0 ≤ stopDistance (loneIter lights n c)) ∧
      ∃ N, ∀ m, N ≤ m →
        (loneIter lights m c).v = 0 ∧ 0 ≤ stopDistance (loneIter lights m c) ∧
          stopDistance (loneIter lights m c) = stopDistance (loneIter lights N c) := by
  have hiter := lone_iter_inv lights
  have hsafe : ∀ n, 0 ≤ stopDistance (loneIter lights n c) := by
    intro n
    obtain ⟨hp', hi', -⟩ := hiter n c hp hi hf
    exact stopDist_nonneg_of_inv _ hp' hi'
  refine ⟨hsafe, ?_⟩
  obtain ⟨N, -, hH⟩ := lone_reaches_halt lights (loneMeasure c) c hp hi hf (le_refl _)
  refine ⟨N, fun m hm => ?_⟩
  obtain ⟨hpN, hiN, hfN⟩ := hiter N c hp hi hf
  have hsplit : loneIter lights m c = loneIter lights (m - N) (loneIter lights N c) := by
    rw [← loneIter_add lights N (m - N) c, Nat.add_sub_cancel' hm]
  obtain ⟨hv, hd⟩ := halted_iter lights (m - N) (loneIter lights N c) hpN hfN hH
  rw [hsplit]
  exact ⟨hv, by rw [← hsplit]; exact hsafe m, hd⟩

theorem c1_red_light_stopping_witness :
    (ParamsOK loneCar ∧ LoneInv loneCar ∧ FacingStop loneCar redVerticalLights) ∧
      ((∀ n, 0 ≤ stopDistance (loneIter redVerticalLights n loneCar)) ∧
        ∃ N, ∀ m, N ≤ m →
          (loneIter redVerticalLights m loneCar).v = 0 ∧
            0 ≤ stopDistance (loneIter redVerticalLights m loneCar) ∧
            stopDistance (loneIter redVerticalLights m loneCar)
              = stopDistance (loneIter redVerticalLights N loneCar)) :=
  ⟨by with_unfolding_all decide,
   c1_red_light_stopping loneCar redVerticalLights (by with_unfolding_all decide)
     (by with_unfolding_all decide) (by with_unfolding_all decide)⟩
